import Mathlib

/-!
Verification development for the `FloatingLabels` widget of the
GaussianSplats3D annotation layer (`src/ui/Labels.js`).

The widget keeps a map from label ids to label instances.  Every label
owns a container (a group placed at the world-space anchor point), a
background mesh, a text sprite, an optional connector line, a text
string, a flat options record and the visual offset currently applied
to its children.  The numeric type is an arbitrary linear ordered
field, instantiated with rationals for concrete evaluations; square
roots (used only by vector normalization inside the per-frame update)
are passed explicitly as a function parameter, mirroring the fact that
all claims about the update hold for every square-root function.

Scalar literals such as 1.5, 0.4, 0.01 are written exactly as the
source writes them; they elaborate through scientific literals of the
field.
-/

set_option autoImplicit false

namespace FloatingLabels

variable {q : Type} [LinearOrderedField q]

/-- Componentwise model of `THREE.Vector3`. -/
structure Vec3 (q : Type) where
  x : q
  y : q
  z : q
deriving DecidableEq

/-- Model of `new THREE.Vector3()` (all components zero). -/
def Vec3.zero : Vec3 q := ⟨0, 0, 0⟩

/-- Model of `THREE.Vector3.add`. -/
def Vec3.addv (a b : Vec3 q) : Vec3 q := ⟨a.x + b.x, a.y + b.y, a.z + b.z⟩

/-- Model of `THREE.Vector3.sub`. -/
def Vec3.sub (a b : Vec3 q) : Vec3 q := ⟨a.x - b.x, a.y - b.y, a.z - b.z⟩

/-- Model of `THREE.Vector3.multiplyScalar`. -/
def Vec3.multiplyScalar (v : Vec3 q) (s : q) : Vec3 q := ⟨v.x * s, v.y * s, v.z * s⟩

/-- Model of `THREE.Vector3.divideScalar` (`multiplyScalar(1 / scalar)`). -/
def Vec3.divideScalar (v : Vec3 q) (s : q) : Vec3 q := v.multiplyScalar (1 / s)

/-- Model of `THREE.Vector3.dot`. -/
def Vec3.dot (a b : Vec3 q) : q := a.x * b.x + a.y * b.y + a.z * b.z

/-- Model of `THREE.Vector3.lengthSq`. -/
def Vec3.lengthSq (v : Vec3 q) : q := v.x * v.x + v.y * v.y + v.z * v.z

/-- Model of `THREE.Vector3.length`: the square root of `lengthSq`, where
the square-root function of the scalar field is an explicit parameter. -/
def Vec3.length (sqrt : q → q) (v : Vec3 q) : q := sqrt v.lengthSq

/-- Model of `THREE.Vector3.normalize`: `divideScalar(this.length() || 1)`;
the JS `|| 1` guard against zero length is the inner conditional. -/
def Vec3.normalize (sqrt : q → q) (v : Vec3 q) : Vec3 q :=
  let l := v.length sqrt
  v.divideScalar (if l = 0 then 1 else l)

/-- Model of `THREE.Vector3.projectOnVector`: projects `v` onto `target`,
returning zero when `target` has zero squared length, exactly as THREE does. -/
def Vec3.projectOnVector (v target : Vec3 q) : Vec3 q :=
  let denominator := target.lengthSq
  if denominator = 0 then Vec3.zero
  else target.multiplyScalar (target.dot v / denominator)

/-- Model of `THREE.Vector3.projectOnPlane`: subtracts from `v` its
projection onto the plane normal. -/
def Vec3.projectOnPlane (v planeNormal : Vec3 q) : Vec3 q :=
  v.sub (v.projectOnVector planeNormal)

/-- Componentwise model of `THREE.Quaternion`; the update loop only ever
copies quaternions wholesale, so no quaternion algebra is needed. -/
structure Quat (q : Type) where
  x : q
  y : q
  z : q
  w : q
deriving DecidableEq

/-- The flat label-options record.  Fields and defaults follow
`getDefaultLabelOptions` (Labels.js lines 873-900); `offset` is the
optional explicit offset read by `calculateVisualOffset` (line 932), not
present among the defaults, hence an `Option`. -/
structure LabelOptions (q : Type) where
  width : q
  height : q
  backgroundColor : String
  textColor : String
  opacity : q
  showConnector : Bool
  connectorPosition : String
  connectorWidth : q
  connectorLength : q
  connectorColor : String
  font : String
  padding : q
  depthTest : Bool
  sizeAttenuation : Bool
  visible : Bool
  renderOrderBackground : Int
  renderOrderText : Int
  renderOrderConnector : Int
  calculatedVisualOffset : Vec3 q
  connectorTarget : Vec3 q
  offset : Option (Vec3 q)
deriving DecidableEq

/-- A partial options object as supplied by callers: every key may be
present (`some`) or absent (`none`), modelling a plain JS object that is
later spread over the stored options. -/
structure LabelOptionsPatch (q : Type) where
  width : Option q := none
  height : Option q := none
  backgroundColor : Option String := none
  textColor : Option String := none
  opacity : Option q := none
  showConnector : Option Bool := none
  connectorPosition : Option String := none
  connectorWidth : Option q := none
  connectorLength : Option q := none
  connectorColor : Option String := none
  font : Option String := none
  padding : Option q := none
  depthTest : Option Bool := none
  sizeAttenuation : Option Bool := none
  visible : Option Bool := none
  renderOrderBackground : Option Int := none
  renderOrderText : Option Int := none
  renderOrderConnector : Option Int := none
  calculatedVisualOffset : Option (Vec3 q) := none
  connectorTarget : Option (Vec3 q) := none
  offset : Option (Vec3 q) := none
deriving DecidableEq

/-- Model of `getDefaultLabelOptions` (lines 873-900). -/
def getDefaultLabelOptions : LabelOptions q where
  width := 1.5
  height := 0.4
  backgroundColor := "#333333"
  textColor := "#ffffff"
  opacity := 0.8
  showConnector := true
  connectorPosition := "top"
  connectorWidth := 2
  connectorLength := 0.5
  connectorColor := "#ffffff"
  font := "Bold 24px Arial"
  padding := 10
  depthTest := true
  sizeAttenuation := true
  visible := true
  renderOrderBackground := 1
  renderOrderText := 2
  renderOrderConnector := 0
  calculatedVisualOffset := Vec3.zero
  connectorTarget := Vec3.zero
  offset := none

/-- Model of the JS object spread `{ ...base, ...p }`: a key present in
the patch wins, an absent key keeps the base value. -/
def spreadOptions (base : LabelOptions q) (p : LabelOptionsPatch q) : LabelOptions q where
  width := p.width.getD base.width
  height := p.height.getD base.height
  backgroundColor := p.backgroundColor.getD base.backgroundColor
  textColor := p.textColor.getD base.textColor
  opacity := p.opacity.getD base.opacity
  showConnector := p.showConnector.getD base.showConnector
  connectorPosition := p.connectorPosition.getD base.connectorPosition
  connectorWidth := p.connectorWidth.getD base.connectorWidth
  connectorLength := p.connectorLength.getD base.connectorLength
  connectorColor := p.connectorColor.getD base.connectorColor
  font := p.font.getD base.font
  padding := p.padding.getD base.padding
  depthTest := p.depthTest.getD base.depthTest
  sizeAttenuation := p.sizeAttenuation.getD base.sizeAttenuation
  visible := p.visible.getD base.visible
  renderOrderBackground := p.renderOrderBackground.getD base.renderOrderBackground
  renderOrderText := p.renderOrderText.getD base.renderOrderText
  renderOrderConnector := p.renderOrderConnector.getD base.renderOrderConnector
  calculatedVisualOffset := p.calculatedVisualOffset.getD base.calculatedVisualOffset
  connectorTarget := p.connectorTarget.getD base.connectorTarget
  offset := match p.offset with
    | some v => some v
    | none => base.offset

/-- A stored options object viewed as a patch all of whose standard keys
are present (a stored options record is a plain JS object, so spreading
it makes every key present); the `offset` key is present only when the
record carries one. -/
def LabelOptions.asPatch (o : LabelOptions q) : LabelOptionsPatch q where
  width := some o.width
  height := some o.height
  backgroundColor := some o.backgroundColor
  textColor := some o.textColor
  opacity := some o.opacity
  showConnector := some o.showConnector
  connectorPosition := some o.connectorPosition
  connectorWidth := some o.connectorWidth
  connectorLength := some o.connectorLength
  connectorColor := some o.connectorColor
  font := some o.font
  padding := some o.padding
  depthTest := some o.depthTest
  sizeAttenuation := some o.sizeAttenuation
  visible := some o.visible
  renderOrderBackground := some o.renderOrderBackground
  renderOrderText := some o.renderOrderText
  renderOrderConnector := some o.renderOrderConnector
  calculatedVisualOffset := some o.calculatedVisualOffset
  connectorTarget := some o.connectorTarget
  offset := o.offset

/-- Model of `calculateVisualOffset` (lines 904-939): places the label
box relative to the anchor.  The string switch and the zero-initialized
vector follow the source; cases are matched in source order with
`bottom` sharing the default arm. -/
def calculateVisualOffset (options : LabelOptions q) : Vec3 q :=
  let width := options.width
  let height := options.height
  let connectorLength := if options.showConnector then options.connectorLength else 0
  let connectorPosition := options.connectorPosition
  let base : Vec3 q :=
    if options.showConnector then
      if connectorPosition = "top" then ⟨0, height / 2 + connectorLength, 0⟩
      else if connectorPosition = "left" then ⟨width / 2 + connectorLength, 0, 0⟩
      else if connectorPosition = "right" then ⟨-(width / 2 + connectorLength), 0, 0⟩
      else ⟨0, -(height / 2 + connectorLength), 0⟩
    else ⟨0, height / 2 + 0.1, 0⟩
  match options.offset with
  | some explicitOffset => base.addv explicitOffset
  | none => base

/-- Model of `calculateConnectorStartPoint` (lines 765-789): picks the box
edge the connector starts from, keyed on `options.connectorPosition`,
with the default arm equal to the `top` arm. -/
def calculateConnectorStartPoint (visualOffset : Vec3 q) (options : LabelOptions q) : Vec3 q :=
  let startPoint := visualOffset
  let width := options.width
  let height := options.height
  if options.connectorPosition = "top" then { startPoint with y := startPoint.y - height / 2 }
  else if options.connectorPosition = "bottom" then { startPoint with y := startPoint.y + height / 2 }
  else if options.connectorPosition = "left" then { startPoint with x := startPoint.x - width / 2 }
  else if options.connectorPosition = "right" then { startPoint with x := startPoint.x + width / 2 }
  else { startPoint with y := startPoint.y - height / 2 }

/-- State of a background mesh.  Geometry and material parameters
(colors, opacity, render order) are fixed at creation and untouched by
the operations under study, so only the mutable position is modelled. -/
structure BackgroundState (q : Type) where
  position : Vec3 q
deriving DecidableEq

/-- State of a text sprite: its mutable position, and whether its
material carries a canvas texture map (used by disposal).  The canvas
text-drawing pipeline is elided here; it is modelled in full for the
`part_000` variant of `createTextSprite` in namespace `PartZero`. -/
structure SpriteState (q : Type) where
  position : Vec3 q
  hasMap : Bool
deriving DecidableEq

/-- State of a connector `Line2`: its two geometry endpoints (as set by
`LineGeometry.setPositions`), the z offset of the line object, its
visibility flag and the `LineMaterial` resolution. -/
structure ConnectorState (q : Type) where
  geomStart : Vec3 q
  geomEnd : Vec3 q
  positionZ : q
  visible : Bool
  materialResolution : q × q
deriving DecidableEq

/-- A label instance as stored in `this.labels`.  `containerAttached`
records whether the container is currently a child of the labels group. -/
structure Label (q : Type) where
  containerPosition : Vec3 q
  containerQuaternion : Quat q
  containerVisible : Bool
  containerAttached : Bool
  background : Option (BackgroundState q)
  textSprite : Option (SpriteState q)
  connector : Option (ConnectorState q)
  text : String
  options : LabelOptions q
  currentAppliedOffset : Vec3 q
deriving DecidableEq

/-- The camera state read by the update loop: position, orientation and
the first column of `matrixWorld` (from which the right vector is taken). -/
structure CameraState (q : Type) where
  position : Vec3 q
  quaternion : Quat q
  matrixWorldCol0 : Vec3 q
deriving DecidableEq

/-- The label collection, a JS `Map` from ids to label instances kept in
insertion order with unique keys. -/
abbrev LabelMap (q : Type) : Type := List (String × Label q)

/-- Model of `this.labels.get(id)`. -/
def lookupLabel (id : String) : LabelMap q → Option (Label q)
  | [] => none
  | entry :: rest => if entry.1 = id then some entry.2 else lookupLabel id rest

/-- Model of `this.labels.set(id, label)`: replaces the value at an
existing key, otherwise appends. -/
def setLabel (id : String) (label : Label q) : LabelMap q → LabelMap q
  | [] => [(id, label)]
  | entry :: rest =>
    if entry.1 = id then (id, label) :: rest else entry :: setLabel id label rest

/-- Model of `this.labels.delete(id)`. -/
def eraseLabel (id : String) (labels : LabelMap q) : LabelMap q :=
  labels.filter (fun entry => entry.1 != id)

/-- Resource-release actions performed by `cleanupLabelElements` and
`removeLabel`, recorded so theorems can speak about disposal. -/
inductive DisposeEvent where
  | spriteMapDisposed
  | spriteMaterialDisposed
  | backgroundMaterialDisposed
  | backgroundGeometryDisposed
  | connectorMaterialDisposed
  | connectorGeometryDisposed
  | containerDetached
deriving DecidableEq

/-- Model of `cleanupLabelElements` (lines 941-960): detaches and nulls
the three visual children and disposes their materials, geometries and,
for the sprite, its optional texture map. -/
def cleanupLabelElements (label : Label q) : Label q × List DisposeEvent :=
  let spriteEvents : List DisposeEvent :=
    match label.textSprite with
    | some sprite =>
      (if sprite.hasMap then [DisposeEvent.spriteMapDisposed] else [])
        ++ [DisposeEvent.spriteMaterialDisposed]
    | none => []
  let backgroundEvents : List DisposeEvent :=
    match label.background with
    | some _ => [DisposeEvent.backgroundMaterialDisposed, DisposeEvent.backgroundGeometryDisposed]
    | none => []
  let connectorEvents : List DisposeEvent :=
    match label.connector with
    | some _ => [DisposeEvent.connectorMaterialDisposed, DisposeEvent.connectorGeometryDisposed]
    | none => []
  ({ label with textSprite := none, background := none, connector := none },
    spriteEvents ++ backgroundEvents ++ connectorEvents)

/-- Model of `removeLabel` (lines 962-973): a missing id is a no-op;
otherwise the label elements are cleaned up, the container is detached
from its parent and the entry is deleted from the map.  The notification
callback carries no widget state and is not modelled. -/
def removeLabel (labels : LabelMap q) (id : String) : LabelMap q × List DisposeEvent :=
  match lookupLabel id labels with
  | none => (labels, [])
  | some label =>
    let cleaned := cleanupLabelElements label
    let detachEvents := if label.containerAttached then [DisposeEvent.containerDetached] else []
    (eraseLabel id labels, cleaned.2 ++ detachEvents)

/-- Model of `createBackgroundMesh` (lines 614-627): the mesh starts at
the origin; the caller positions it.  Plane geometry and material
parameters are construction-time constants, elided per
`BackgroundState`. -/
def createBackgroundMesh (width height : q) (options : LabelOptions q) : BackgroundState q :=
  let _ := width
  let _ := height
  let _ := options
  { position := Vec3.zero }

/-- Model of `createTextSprite` (Labels.js lines 629-724) at the level of
`SpriteState`: the sprite starts at the origin with a canvas texture map;
canvas drawing and scale are elided per `SpriteState`.  The `part_000`
variant, whose canvas-size check claim C7 is about, is modelled in full
in namespace `PartZero`. -/
def createTextSprite (text : String) (options : LabelOptions q) : SpriteState q :=
  let _ := text
  let _ := options
  { position := Vec3.zero, hasMap := true }

/-- Model of `createConnector` (lines 727-762): geometry endpoints from
`calculateConnectorStartPoint` and the container origin, line object
pushed back by 0.01, material resolution from the renderer. -/
def createConnector (visualOffset : Vec3 q) (options : LabelOptions q)
    (resolution : q × q) : ConnectorState q where
  geomStart := calculateConnectorStartPoint visualOffset options
  geomEnd := Vec3.zero
  positionZ := -0.01
  visible := true
  materialResolution := resolution

/-- Model of `createLabelObject` (lines 553-612): container at the
anchor, initially billboarded to the camera; the initial visual offset is
computed from the incoming options and then stored back into them as
`calculatedVisualOffset`; children positioned at that offset; connector
created only when `showConnector`. -/
def createLabelObject (cameraQuaternion : Quat q) (resolution : q × q)
    (targetPosition : Vec3 q) (text : String) (options : LabelOptions q) : Label q :=
  let initialVisualOffset := calculateVisualOffset options
  let finalOptions := { options with calculatedVisualOffset := initialVisualOffset }
  { containerPosition := targetPosition
    containerQuaternion := cameraQuaternion
    containerVisible := finalOptions.visible
    containerAttached := false
    background := some { createBackgroundMesh finalOptions.width finalOptions.height finalOptions with
      position := initialVisualOffset }
    textSprite := some { createTextSprite text finalOptions with position := initialVisualOffset }
    connector :=
      if finalOptions.showConnector then
        some (createConnector initialVisualOffset finalOptions resolution)
      else none
    text := text
    options := finalOptions
    currentAppliedOffset := initialVisualOffset }

/-- Model of `_addLabelInternal` (lines 537-551): an existing id is
removed first; the supplied options are spread over the defaults, then
`connectorTarget` is overwritten with (a clone of) the position argument;
the created container is added to the labels group.  The camera
quaternion and renderer resolution are the ambient objects the creation
path reads. -/
def addLabelInternal (cameraQuaternion : Quat q) (resolution : q × q)
    (labels : LabelMap q) (id : String) (position : Vec3 q) (text : String)
    (options : LabelOptionsPatch q) : LabelMap q :=
  let labels1 := if (lookupLabel id labels).isSome then (removeLabel labels id).1 else labels
  let merged := spreadOptions getDefaultLabelOptions options
  let finalOptions := { merged with connectorTarget := position }
  let label := createLabelObject cameraQuaternion resolution position text finalOptions
  setLabel id { label with containerAttached := true } labels1

/-- The per-label position reported by `_notifyUpdate` (lines 51-71):
`options.connectorTarget?.toArray() || container.position.toArray()`.
For every stored label `connectorTarget` is a vector (set on every add
and position update), so the container-position fallback for a missing
target cannot fire in this model and the report is the connector
target. -/
def persistedPosition (label : Label q) : Vec3 q :=
  label.options.connectorTarget

/-- The appearance-change test of `updateLabelText` (lines 808-821).
The JS `!==` on the `offset` key is reference inequality on objects;
it is modelled as value inequality of the optional vectors. -/
def appearanceChangedB (forceFullRedraw : Bool) (merged oldOptions : LabelOptions q) : Bool :=
  forceFullRedraw
  || decide (merged.width ≠ oldOptions.width)
  || decide (merged.height ≠ oldOptions.height)
  || decide (merged.backgroundColor ≠ oldOptions.backgroundColor)
  || decide (merged.opacity ≠ oldOptions.opacity)
  || decide (merged.showConnector ≠ oldOptions.showConnector)
  || decide (merged.connectorPosition ≠ oldOptions.connectorPosition)
  || decide (merged.connectorWidth ≠ oldOptions.connectorWidth)
  || decide (merged.connectorLength ≠ oldOptions.connectorLength)
  || decide (merged.connectorColor ≠ oldOptions.connectorColor)
  || decide (merged.textColor ≠ oldOptions.textColor)
  || decide (merged.font ≠ oldOptions.font)
  || decide (merged.offset ≠ oldOptions.offset)

/-- The option merge performed on every label update (lines 800-806):
defaults, then the previous (stored, hence all-keys-present) options,
then the newly supplied options. -/
def mergedUpdateOptions (oldOptions : LabelOptions q) (newOptions : LabelOptionsPatch q) :
    LabelOptions q :=
  spreadOptions (spreadOptions getDefaultLabelOptions oldOptions.asPatch) newOptions

/-- Model of `updateLabelText` (lines 794-871): merge options; on an
appearance change rebuild all elements at a freshly calculated visual
offset (stored back into the options and into `currentAppliedOffset`);
otherwise rebuild only the text sprite at the currently applied offset. -/
def updateLabelText (resolution : q × q) (labels : LabelMap q) (id : String)
    (newText : String) (newOptions : LabelOptionsPatch q) (forceFullRedraw : Bool) :
    LabelMap q :=
  match lookupLabel id labels with
  | none => labels
  | some label =>
    let oldOptions := label.options
    let mergedOptions := mergedUpdateOptions oldOptions newOptions
    if appearanceChangedB forceFullRedraw mergedOptions oldOptions then
      let cleaned := (cleanupLabelElements label).1
      let newInitialVisualOffset := calculateVisualOffset mergedOptions
      let finalOptions := { mergedOptions with calculatedVisualOffset := newInitialVisualOffset }
      let rebuilt : Label q := { cleaned with
        text := newText
        options := finalOptions
        currentAppliedOffset := newInitialVisualOffset
        background := some { createBackgroundMesh finalOptions.width finalOptions.height finalOptions with
          position := newInitialVisualOffset }
        textSprite := some { createTextSprite newText finalOptions with
          position := newInitialVisualOffset }
        connector :=
          if finalOptions.showConnector then
            some (createConnector newInitialVisualOffset finalOptions resolution)
          else none }
      setLabel id rebuilt labels
    else
      let rebuiltSprite := { createTextSprite newText mergedOptions with
        position := label.currentAppliedOffset }
      setLabel id { label with
        text := newText
        options := mergedOptions
        textSprite := some rebuiltSprite } labels

/-- The lateral swap used by `update` when flipping (line 1091):
`intendedPosition === "left" ? "right" : "left"`. -/
def flippedSide (pos : String) : String :=
  if pos = "left" then "right" else "left"

/-- The lateral swap used by `updateConnectorStartPoint` (lines 1021-1022):
`left` and `right` trade places, anything else is unchanged. -/
def swapLateral (pos : String) : String :=
  if pos = "left" then "right" else if pos = "right" then "left" else pos

/-- The screen-right vector of the update loop (lines 1082-1086): the
camera right vector projected onto the plane perpendicular to the
camera-to-anchor ray, normalized. -/
def screenRightOf (sqrt : q → q) (cameraRight cameraPosition target : Vec3 q) : Vec3 q :=
  let camToLabelDir := Vec3.normalize sqrt (target.sub cameraPosition)
  Vec3.normalize sqrt (cameraRight.projectOnPlane camToLabelDir)

/-- The dot product driving the flip decision (lines 1087-1088): intended
offset dotted with the screen-right vector. -/
def flipDotOf (sqrt : q → q) (cameraRight cameraPosition : Vec3 q)
    (options : LabelOptions q) : q :=
  (calculateVisualOffset options).dot
    (screenRightOf sqrt cameraRight cameraPosition options.connectorTarget)

/-- The flip decision of the update loop (lines 1080-1096): evaluated only
for connector-bearing labels with a lateral intended side, true exactly
when the dot product has the sign that puts the label on the wrong
visual side. -/
def needsFlipOf (sqrt : q → q) (cameraRight cameraPosition : Vec3 q)
    (options : LabelOptions q) : Bool :=
  if options.showConnector = true
      ∧ (options.connectorPosition = "left" ∨ options.connectorPosition = "right") then
    let d := flipDotOf sqrt cameraRight cameraPosition options
    if (options.connectorPosition = "left" ∧ d < 0)
        ∨ (options.connectorPosition = "right" ∧ 0 < d) then true
    else false
  else false

/-- The target visual offset of the update loop (lines 1076-1096): the
stored `calculatedVisualOffset`, replaced by the offset of the flipped
side when the flip decision fires. -/
def targetVisualOffsetOf (sqrt : q → q) (cameraRight cameraPosition : Vec3 q)
    (options : LabelOptions q) : Vec3 q :=
  if needsFlipOf sqrt cameraRight cameraPosition options then
    calculateVisualOffset { options with connectorPosition := flippedSide options.connectorPosition }
  else options.calculatedVisualOffset

/-- The start point written by `updateConnectorStartPoint` (lines
1011-1058): computed via `calculateConnectorStartPoint`, on the options
with the lateral side swapped when the flip is active. -/
def updateStartPoint (targetVisualOffset : Vec3 q) (needsFlip : Bool)
    (options : LabelOptions q) : Vec3 q :=
  calculateConnectorStartPoint targetVisualOffset
    (if needsFlip then { options with connectorPosition := swapLateral options.connectorPosition }
     else options)

/-- Model of `updateConnectorStartPoint` (lines 1011-1058) at the label
level: a no-op without a connector or with the connector disabled,
otherwise rewrites the connector geometry to run from the (possibly
side-swapped) start point to the container origin. -/
def applyConnectorStartUpdate (label : Label q) (targetVisualOffset : Vec3 q)
    (needsFlip : Bool) : Label q :=
  match label.connector with
  | none => label
  | some connector =>
    if label.options.showConnector = true then
      { label with connector := some { connector with
          geomStart := updateStartPoint targetVisualOffset needsFlip label.options
          geomEnd := Vec3.zero } }
    else label

/-- The z base of the update loop (line 1113): elements move forward by
0.01 in the flipped case. -/
def zBaseOf (needsFlip : Bool) : q :=
  if needsFlip then 0.01 else 0

/-- Step 1 of the update loop (line 1073): billboard the container to the
camera orientation. -/
def billboardStep (cam : CameraState q) (label : Label q) : Label q :=
  { label with containerQuaternion := cam.quaternion }

/-- Step 3 of the update loop (lines 1100-1109): when the target visual
offset differs from the currently applied one, move background and text
sprite to it, rewrite the connector geometry and record the new applied
offset; otherwise leave the label untouched. -/
def applyOffsetStep (targetVisualOffset : Vec3 q) (needsFlip : Bool) (label : Label q) :
    Label q :=
  if label.currentAppliedOffset = targetVisualOffset then label
  else
    let l2 : Label q := { label with
      background := label.background.map (fun b => { b with position := targetVisualOffset })
      textSprite := label.textSprite.map (fun s => { s with position := targetVisualOffset }) }
    let l2c := applyConnectorStartUpdate l2 targetVisualOffset needsFlip
    { l2c with currentAppliedOffset := targetVisualOffset }

/-- Step 4 of the update loop (lines 1111-1128): when a background mesh
exists, re-assign the z offsets of connector, background and text sprite
from the flip-dependent z base. -/
def zOrderStep (needsFlip : Bool) (label : Label q) : Label q :=
  match label.background with
  | none => label
  | some b =>
    let zBase : q := zBaseOf needsFlip
    { label with
      connector := label.connector.map (fun c => { c with positionZ := zBase - 0.005 })
      background := some { b with position := { b.position with z := zBase } }
      textSprite := label.textSprite.map (fun s =>
        { s with position := { s.position with z := zBase + 0.005 } }) }

/-- Step 5 of the update loop (lines 1131-1140): container visibility from
the options, connector visibility from connector flag and options. -/
def visibilityStep (label : Label q) : Label q :=
  { label with
    containerVisible := label.options.visible
    connector := label.connector.map (fun c =>
      { c with visible := label.options.showConnector && label.options.visible }) }

/-- Step 6 of the update loop (lines 1142-1152): refresh the line-material
resolution when it changed. -/
def resolutionStep (resolution : q × q) (label : Label q) : Label q :=
  { label with connector := label.connector.map (fun c =>
      if c.materialResolution = resolution then c
      else { c with materialResolution := resolution }) }

/-- Model of the per-label body of `update` (lines 1069-1153): billboard,
flip decision and target offset, conditional offset application,
z ordering, visibility, material resolution, in source order. -/
def updateLabel (sqrt : q → q) (cam : CameraState q) (cameraRight : Vec3 q)
    (resolution : q × q) (label : Label q) : Label q :=
  let l1 := billboardStep cam label
  let needsFlip := needsFlipOf sqrt cameraRight cam.position l1.options
  let targetVisualOffset := targetVisualOffsetOf sqrt cameraRight cam.position l1.options
  resolutionStep resolution
    (visibilityStep (zOrderStep needsFlip (applyOffsetStep targetVisualOffset needsFlip l1)))

/-- Model of `update` (lines 1061-1154): a silent no-op without a camera
or with an empty label collection; otherwise the camera right vector is
taken from the first matrix column and every label is updated in place. -/
def update (sqrt : q → q) (camera : Option (CameraState q)) (resolution : q × q)
    (labels : LabelMap q) : LabelMap q :=
  match camera with
  | none => labels
  | some cam =>
    if labels.isEmpty then labels
    else
      let cameraRight := Vec3.normalize sqrt cam.matrixWorldCol0
      labels.map (fun entry => (entry.1, updateLabel sqrt cam cameraRight resolution entry.2))

/-- The sign of a scalar as an integer in -1, 0, 1; used to state that
the flip decision depends on the dot product only through its sign. -/
def sgn (x : q) : Int :=
  if x < 0 then -1 else if 0 < x then 1 else 0

/-- The pure flip-decision function of claim C1, following the spec text:
flip a left label when the sign is negative, a right label when the sign
is positive. -/
def flipDecision (side : String) (s : Int) : Bool :=
  if side = "left" then decide (s = -1)
  else if side = "right" then decide (s = 1)
  else false

/-- The offsets claimed by C2, following the spec text: `top` is height/2
plus connector length upward, `bottom` its negation, `left` width/2 plus
connector length in positive x, `right` its negation. -/
def specC2VisualOffset (options : LabelOptions q) : Vec3 q :=
  if options.connectorPosition = "top" then
    ⟨0, options.height / 2 + options.connectorLength, 0⟩
  else if options.connectorPosition = "bottom" then
    ⟨0, -(options.height / 2 + options.connectorLength), 0⟩
  else if options.connectorPosition = "left" then
    ⟨options.width / 2 + options.connectorLength, 0, 0⟩
  else
    ⟨-(options.width / 2 + options.connectorLength), 0, 0⟩

/-- The connector start point claimed by C3, following the spec text:
top takes offset minus height/2 in y, bottom plus height/2 in y, left
minus width/2 in x, right plus width/2 in x, keyed on the connector side
in the given options. -/
def specC3StartPoint (visualOffset : Vec3 q) (options : LabelOptions q) : Vec3 q :=
  if options.connectorPosition = "top" then
    { visualOffset with y := visualOffset.y - options.height / 2 }
  else if options.connectorPosition = "bottom" then
    { visualOffset with y := visualOffset.y + options.height / 2 }
  else if options.connectorPosition = "left" then
    { visualOffset with x := visualOffset.x - options.width / 2 }
  else
    { visualOffset with x := visualOffset.x + options.width / 2 }

namespace PartZero

/-!
Full model of the `createTextSprite` variant of `src/unnamed/part_000`
(lines 633-757), the revision of `FloatingLabels` that carries the
invalid-canvas-size placeholder branch documented by the spec.  Canvas
text measurement (`context.measureText`) and the numeric parse of the
font string (`parseInt(font, 10)`) read the DOM environment, so both are
passed in as parameters; everything downstream of them is modelled
exactly.
-/

variable {q : Type} [LinearOrderedField q] [FloorRing q]

/-- The sprite produced by the `part_000` variant of `createTextSprite`:
whether the material has a canvas texture map, the material color, the
scale, the attenuation flag and the render order. -/
structure Sprite (q : Type) where
  hasMap : Bool
  colorHex : Nat
  scaleX : q
  scaleY : q
  sizeAttenuation : Bool
  renderOrder : Int
deriving DecidableEq

/-- The lines drawn: the text split on the two-character sequence
backslash-n, exactly as `text.split("\\n")` does; the JS branch for
falsy text also yields a single empty line, as `splitOn` does on the
empty string. -/
def linesOf (text : String) : List String := text.splitOn "\\n"

/-- Maximum measured line width, starting from zero. -/
def maxTextWidthOf (measure : String → q) (text : String) : q :=
  (linesOf text).foldl (fun m line => max m (measure line)) 0

/-- Font size: `parseInt(font, 10) || 24`, with the parse result an
environment input (`none` models NaN); zero is falsy in JS, hence also
replaced by 24. -/
def fontSizeOf (parsedFontSize : Option q) : q :=
  match parsedFontSize with
  | none => 24
  | some v => if v = 0 then 24 else v

/-- `fontSize * 1.2`. -/
def estimatedLineHeightOf (parsedFontSize : Option q) : q :=
  fontSizeOf parsedFontSize * 1.2

/-- `estimatedLineHeight * lines.length`. -/
def totalTextHeightOf (parsedFontSize : Option q) (text : String) : q :=
  estimatedLineHeightOf parsedFontSize * ((linesOf text).length : q)

/-- `Math.max(1, Math.ceil(maxTextWidth + padding * 2))`. -/
def canvasWidthPixelsOf (measure : String → q) (padding : q) (text : String) : q :=
  max 1 ((Int.ceil (maxTextWidthOf measure text + padding * 2) : ℤ) : q)

/-- `Math.max(1, Math.ceil(totalTextHeight + padding * 2))`. -/
def canvasHeightPixelsOf (parsedFontSize : Option q) (padding : q) (text : String) : q :=
  max 1 ((Int.ceil (totalTextHeightOf parsedFontSize text + padding * 2) : ℤ) : q)

/-- The scaled canvas width (resolution scale factor 4). -/
def canvasWidthOf (measure : String → q) (padding : q) (text : String) : q :=
  canvasWidthPixelsOf measure padding text * 4

/-- The scaled canvas height (resolution scale factor 4). -/
def canvasHeightOf (parsedFontSize : Option q) (padding : q) (text : String) : q :=
  canvasHeightPixelsOf parsedFontSize padding text * 4

/-- The magenta placeholder sprite of the invalid-size branch (part_000
lines 666-680): no texture map, color 0xff00ff, scaled to the label box
dimensions. -/
def errorSprite (options : LabelOptions q) : Sprite q where
  hasMap := false
  colorHex := 0xff00ff
  scaleX := options.width
  scaleY := options.height
  sizeAttenuation := options.sizeAttenuation
  renderOrder := 0

/-- Sprite construction from the computed canvas size: the placeholder on
a non-positive width or height, otherwise the normal textured sprite
scaled to the canvas aspect at the box height (part_000 lines 666-756). -/
def spriteFromCanvas (canvasWidth canvasHeight : q) (options : LabelOptions q) : Sprite q :=
  if canvasWidth ≤ 0 ∨ canvasHeight ≤ 0 then errorSprite options
  else
    { hasMap := true
      colorHex := 0xffffff
      scaleX := options.height * (canvasWidth / canvasHeight)
      scaleY := options.height
      sizeAttenuation := options.sizeAttenuation
      renderOrder := options.renderOrderText }

/-- Model of the `part_000` variant of `createTextSprite` (lines
633-757): compute the scaled canvas size, then build the sprite. -/
def createTextSprite (measure : String → q) (parsedFontSize : Option q)
    (text : String) (options : LabelOptions q) : Sprite q :=
  spriteFromCanvas (canvasWidthOf measure options.padding text)
    (canvasHeightOf parsedFontSize options.padding text) options

end PartZero

/-!
Concrete sample values over the rationals, used by the closed witness
and counterexample theorems below.
-/

/-- A square-root stub for rational evaluations; it agrees with the real
square root at every argument the sample geometry produces (only 1). -/
def sqrtOneStub : ℚ → ℚ := fun x => if x = 1 then 1 else 0

/-- An identity orientation. -/
def qIdent : Quat ℚ := ⟨0, 0, 0, 1⟩

/-- A sample drawing-buffer resolution. -/
def res0 : ℚ × ℚ := (800, 600)

/-- A label built from the default options (connector on top) anchored at
the origin, as the creation path produces it. -/
def sampleTopLabel : Label ℚ :=
  createLabelObject qIdent res0 Vec3.zero "Sample" getDefaultLabelOptions

/-- A camera in front of the sample label, right vector along positive x. -/
def cam0 : CameraState ℚ :=
  { position := ⟨0, 0, 5⟩, quaternion := qIdent, matrixWorldCol0 := ⟨1, 0, 0⟩ }

/-- Options of a label intended visually right of its anchor (0, 0, 1). -/
def flipOptions : LabelOptions ℚ :=
  { getDefaultLabelOptions with connectorPosition := "left", connectorTarget := ⟨0, 0, 1⟩ }

/-- The lateral sample label as created. -/
def flipLabel : Label ℚ := createLabelObject qIdent res0 ⟨0, 0, 1⟩ "Flip" flipOptions

/-- A camera at the origin whose right vector points in negative x, so
the lateral sample label appears on the wrong visual side. -/
def flipCam : CameraState ℚ :=
  { position := ⟨0, 0, 0⟩, quaternion := qIdent, matrixWorldCol0 := ⟨-1, 0, 0⟩ }

/-- A patch changing only the height, used to exercise the update merge. -/
def heightPatch : LabelOptionsPatch ℚ := { height := some 0.6 }

/-- The per-label result the amended claim C5 predicts for a fully
populated label with its connector enabled: the x and y offset
components of background, text sprite and the connector geometry are
rewritten exactly when the computed target offset differs from the
currently applied one (and kept verbatim otherwise), the applied offset
always ends up equal to the computed target, while the z components and
the connector z are re-assigned every frame from the flip-dependent
z base, visibility follows the options, and the material resolution ends
up equal to the renderer resolution. -/
def specC5Updated {q : Type} [LinearOrderedField q] (sqrt : q → q) (cam : CameraState q)
    (cameraRight : Vec3 q) (resolution : q × q) (label : Label q)
    (bg : BackgroundState q) (sp : SpriteState q) (cn : ConnectorState q) : Label q :=
  let t := targetVisualOffsetOf sqrt cameraRight cam.position label.options
  let nf := needsFlipOf sqrt cameraRight cam.position label.options
  let zb : q := zBaseOf nf
  let bgx := if label.currentAppliedOffset = t then bg.position.x else t.x
  let bgy := if label.currentAppliedOffset = t then bg.position.y else t.y
  let spx := if label.currentAppliedOffset = t then sp.position.x else t.x
  let spy := if label.currentAppliedOffset = t then sp.position.y else t.y
  let gs := if label.currentAppliedOffset = t then cn.geomStart
    else updateStartPoint t nf label.options
  let ge := if label.currentAppliedOffset = t then cn.geomEnd else Vec3.zero
  { containerPosition := label.containerPosition
    containerQuaternion := cam.quaternion
    containerVisible := label.options.visible
    containerAttached := label.containerAttached
    background := some ⟨⟨bgx, bgy, zb⟩⟩
    textSprite := some ⟨⟨spx, spy, zb + 0.005⟩, sp.hasMap⟩
    connector := some ⟨gs, ge, zb - 0.005,
      label.options.showConnector && label.options.visible, resolution⟩
    text := label.text
    options := label.options
    currentAppliedOffset := t }

/-- The stored options the amended claim C6 predicts after an update:
the three-way merge (defaults, then previous options, then new options),
except that `calculatedVisualOffset` is recomputed from the merged
options whenever the appearance-change test fires. -/
def specC6StoredOptions {q : Type} [LinearOrderedField q] (oldOptions : LabelOptions q)
    (patch : LabelOptionsPatch q) (forceFullRedraw : Bool) : LabelOptions q :=
  let merged := mergedUpdateOptions oldOptions patch
  if appearanceChangedB forceFullRedraw merged oldOptions then
    { merged with calculatedVisualOffset := calculateVisualOffset merged }
  else merged

/-!
## Theorems

Shared lemmas about the label map first, then one theorem per claim
(with the closed witnesses and counterexamples the claims call for).
-/

/-- Looking up a key just set returns the stored label. -/
theorem lookupLabel_setLabel_self {q : Type} [LinearOrderedField q] (id : String)
    (label : Label q) (labels : LabelMap q) :
    lookupLabel id (setLabel id label labels) = some label := by
  induction labels with
  | nil => simp [setLabel, lookupLabel]
  | cons entry rest ih =>
    by_cases h : entry.1 = id
    · simp [setLabel, lookupLabel, h]
    · simp [setLabel, lookupLabel, h, ih]

/-- Looking up an erased key fails. -/
theorem lookupLabel_eraseLabel_self {q : Type} [LinearOrderedField q] (id : String)
    (labels : LabelMap q) : lookupLabel id (eraseLabel id labels) = none := by
  simp only [eraseLabel]
  induction labels with
  | nil => rfl
  | cons entry rest ih =>
    rw [List.filter_cons]
    by_cases h : entry.1 = id
    · simp [h, ih]
    · simp [h, lookupLabel, ih, bne_iff_ne]

/-- Lookup commutes with an entry-wise value map. -/
theorem lookupLabel_mapValues {q : Type} [LinearOrderedField q]
    (f : Label q → Label q) (id : String) (labels : LabelMap q) :
    lookupLabel id (labels.map (fun entry => (entry.1, f entry.2)))
      = (lookupLabel id labels).map f := by
  induction labels with
  | nil => rfl
  | cons entry rest ih =>
    by_cases h : entry.1 = id
    · simp [lookupLabel, h]
    · simp [lookupLabel, h, ih]

/-- C2: for a connector-enabled label with no explicit offset option,
`calculateVisualOffset` places the box adjacent to the anchor with a gap
equal to the connector length: connector side `top` yields
y = height/2 + connectorLength, `bottom` its negation, `left` yields
x = width/2 + connectorLength, `right` its negation, with the other two
components zero in every case (`specC2VisualOffset` states exactly these
four vectors). -/
theorem calculateVisualOffset_matches_spec {q : Type} [LinearOrderedField q]
    (options : LabelOptions q) (hshow : options.showConnector = true)
    (hoff : options.offset = none)
    (hpos : options.connectorPosition = "top" ∨ options.connectorPosition = "bottom"
      ∨ options.connectorPosition = "left" ∨ options.connectorPosition = "right") :
    calculateVisualOffset options = specC2VisualOffset options := by
  rcases hpos with h | h | h | h <;>
    simp [calculateVisualOffset, specC2VisualOffset, hshow, hoff, h]

/-- Witness for C2 at the default options (connector on `top`). -/
theorem calculateVisualOffset_matches_spec_witness :
    (getDefaultLabelOptions : LabelOptions ℚ).showConnector = true
    ∧ (getDefaultLabelOptions : LabelOptions ℚ).offset = none
    ∧ calculateVisualOffset (getDefaultLabelOptions : LabelOptions ℚ)
        = specC2VisualOffset (getDefaultLabelOptions : LabelOptions ℚ) :=
  ⟨rfl, rfl, calculateVisualOffset_matches_spec _ rfl rfl (Or.inl rfl)⟩

/-- C8: the frame-update hook is a silent no-op when the camera is
missing or the label collection is empty: `update` returns the
collection unchanged (so every label and all widget state is untouched). -/
theorem update_noop_without_camera_or_labels {q : Type} [LinearOrderedField q]
    (sqrt : q → q) (camera : Option (CameraState q)) (resolution : q × q)
    (labels : LabelMap q) (h : camera = none ∨ labels = []) :
    update sqrt camera resolution labels = labels := by
  rcases h with h | h
  · subst h; rfl
  · subst h
    cases camera with
    | none => rfl
    | some cam => simp [update]

/-- Witness for C8: a camera-less update leaves a one-label collection
untouched. -/
theorem update_noop_without_camera_or_labels_witness :
    update sqrtOneStub none res0 [("Sample", sampleTopLabel)]
      = [("Sample", sampleTopLabel)] :=
  update_noop_without_camera_or_labels sqrtOneStub none res0 _ (Or.inl rfl)

/-- C9: adding a label stores a copy of the position argument as the
connector target, overriding any caller-supplied `connectorTarget`
inside the options, and the persisted position reported to the host for
the added label equals the position it was added at. -/
theorem addLabel_anchor_overrides {q : Type} [LinearOrderedField q]
    (cameraQuaternion : Quat q) (resolution : q × q) (labels : LabelMap q)
    (id : String) (position : Vec3 q) (text : String) (options : LabelOptionsPatch q) :
    ((lookupLabel id
        (addLabelInternal cameraQuaternion resolution labels id position text options)).map
      (fun l => l.options.connectorTarget)) = some position
    ∧ ((lookupLabel id
        (addLabelInternal cameraQuaternion resolution labels id position text options)).map
      persistedPosition) = some position := by
  constructor <;>
    simp [addLabelInternal, lookupLabel_setLabel_self, createLabelObject, persistedPosition]

/-- Removing an absent id is a no-op with no events. -/
theorem removeLabel_not_found {q : Type} [LinearOrderedField q]
    (labels : LabelMap q) (id : String) (h : lookupLabel id labels = none) :
    removeLabel labels id = (labels, []) := by
  simp [removeLabel, h]

/-- C4: removing a present label disposes every rendering resource of its
children (sprite texture map and material, background material and
geometry, connector material and geometry), detaches the container and
deletes the id from the collection; a second removal of the same id is a
no-op that returns the collection unchanged with no dispose events. -/
theorem removeLabel_releases_and_idempotent {q : Type} [LinearOrderedField q]
    (labels : LabelMap q) (id : String) (label : Label q)
    (h : lookupLabel id labels = some label) :
    lookupLabel id (removeLabel labels id).1 = none
    ∧ removeLabel (removeLabel labels id).1 id = ((removeLabel labels id).1, [])
    ∧ (label.textSprite.isSome = true →
        DisposeEvent.spriteMaterialDisposed ∈ (removeLabel labels id).2)
    ∧ (∀ s, label.textSprite = some s → s.hasMap = true →
        DisposeEvent.spriteMapDisposed ∈ (removeLabel labels id).2)
    ∧ (label.background.isSome = true →
        DisposeEvent.backgroundMaterialDisposed ∈ (removeLabel labels id).2
        ∧ DisposeEvent.backgroundGeometryDisposed ∈ (removeLabel labels id).2)
    ∧ (label.connector.isSome = true →
        DisposeEvent.connectorMaterialDisposed ∈ (removeLabel labels id).2
        ∧ DisposeEvent.connectorGeometryDisposed ∈ (removeLabel labels id).2)
    ∧ (label.containerAttached = true →
        DisposeEvent.containerDetached ∈ (removeLabel labels id).2) := by
  have h1 : (removeLabel labels id).1 = eraseLabel id labels := by simp [removeLabel, h]
  have h2 : (removeLabel labels id).2 = (cleanupLabelElements label).2
      ++ (if label.containerAttached then [DisposeEvent.containerDetached] else []) := by
    simp [removeLabel, h]
  have hnone : lookupLabel id (removeLabel labels id).1 = none := by
    rw [h1]; exact lookupLabel_eraseLabel_self id labels
  refine ⟨hnone, ?_, ?_, ?_, ?_, ?_, ?_⟩
  · exact removeLabel_not_found _ _ hnone
  · intro hs
    rcases hsp : label.textSprite with _ | s
    · rw [hsp] at hs; simp at hs
    · rw [h2]; simp [cleanupLabelElements, hsp]
  · intro s hsp hmap
    rw [h2]; simp [cleanupLabelElements, hsp, hmap]
  · intro hb
    rcases hbg : label.background with _ | b
    · rw [hbg] at hb; simp at hb
    · rw [h2]
      constructor <;> simp [cleanupLabelElements, hbg]
  · intro hc
    rcases hcn : label.connector with _ | c
    · rw [hcn] at hc; simp at hc
    · rw [h2]
      constructor <;> simp [cleanupLabelElements, hcn]
  · intro ha
    rw [h2]; simp [ha]

/-- Witness for C4 at a one-label collection holding the sample label. -/
theorem removeLabel_releases_and_idempotent_witness :
    lookupLabel "Sample" [("Sample", sampleTopLabel)] = some sampleTopLabel
    ∧ lookupLabel "Sample" (removeLabel [("Sample", sampleTopLabel)] "Sample").1 = none
    ∧ removeLabel (removeLabel [("Sample", sampleTopLabel)] "Sample").1 "Sample"
        = ((removeLabel [("Sample", sampleTopLabel)] "Sample").1, []) := by
  have hm := removeLabel_releases_and_idempotent
    [("Sample", sampleTopLabel)] "Sample" sampleTopLabel rfl
  exact ⟨rfl, hm.1, hm.2.1⟩

/-- C1: for a connector-enabled label whose intended side is lateral, the
per-frame flip decision equals the pure function `flipDecision` of the
intended side and the sign of the dot product of the screen-right vector
with the intended offset (so it depends on the geometry only through
that sign, flipping exactly when the sign marks the wrong visual side);
when the decision fires the target offset is the visual offset of the
opposite lateral side; and applying the side flip twice returns the
original side. -/
theorem flip_decision_pure_of_sign {q : Type} [LinearOrderedField q]
    (sqrt : q → q) (cameraRight cameraPosition : Vec3 q) (options : LabelOptions q)
    (hshow : options.showConnector = true)
    (hlat : options.connectorPosition = "left" ∨ options.connectorPosition = "right") :
    needsFlipOf sqrt cameraRight cameraPosition options
      = flipDecision options.connectorPosition
          (sgn (flipDotOf sqrt cameraRight cameraPosition options))
    ∧ (needsFlipOf sqrt cameraRight cameraPosition options = true →
        targetVisualOffsetOf sqrt cameraRight cameraPosition options
          = calculateVisualOffset
              { options with connectorPosition := flippedSide options.connectorPosition })
    ∧ flippedSide (flippedSide options.connectorPosition) = options.connectorPosition := by
  refine ⟨?_, ?_, ?_⟩
  · rcases hlat with h | h
    · simp only [needsFlipOf, flipDecision, sgn, h, hshow]
      rcases lt_trichotomy (flipDotOf sqrt cameraRight cameraPosition options) 0 with
        hd | hd | hd
      · simp [hd]
      · simp [hd]
      · simp [hd, hd.asymm]
    · simp only [needsFlipOf, flipDecision, sgn, h, hshow]
      rcases lt_trichotomy (flipDotOf sqrt cameraRight cameraPosition options) 0 with
        hd | hd | hd
      · simp [hd, hd.asymm]
      · simp [hd]
      · simp [hd, hd.asymm]
  · intro hf
    simp [targetVisualOffsetOf, hf]
  · rcases hlat with h | h <;> simp [flippedSide, h]

/-- Witness for C1 at the lateral sample label. -/
theorem flip_decision_pure_of_sign_witness :
    flipOptions.showConnector = true
    ∧ (flipOptions.connectorPosition = "left" ∨ flipOptions.connectorPosition = "right")
    ∧ flippedSide (flippedSide flipOptions.connectorPosition)
        = flipOptions.connectorPosition := by
  have hm := flip_decision_pure_of_sign sqrtOneStub (⟨-1, 0, 0⟩ : Vec3 ℚ) ⟨0, 0, 0⟩
    flipOptions rfl (Or.inl rfl)
  exact ⟨rfl, Or.inl rfl, hm.2.2⟩

/-- Counterexample to C3 as stated: on a flipped frame the update writes
a connector start point computed from the swapped lateral side, not the
intended one.  For the lateral sample label (intended side `left`,
applied offset flipped to (-5/4, 0, 0)) the update writes the start
point (-1/2, 0, 0), while the claim's intended-side edge choice yields
(-2, 0, 0). -/
theorem connector_start_flip_cex :
    ((lookupLabel "Flip" (update sqrtOneStub (some flipCam) res0 [("Flip", flipLabel)])).map
        (fun l => (l.connector.map (fun c => c.geomStart), l.currentAppliedOffset)))
      = some (some ⟨-(1/2 : ℚ), 0, 0⟩, ⟨-(5/4 : ℚ), 0, 0⟩)
    ∧ specC3StartPoint (⟨-(5/4 : ℚ), 0, 0⟩ : Vec3 ℚ) flipLabel.options = ⟨-2, 0, 0⟩
    ∧ (⟨-(1/2 : ℚ), 0, 0⟩ : Vec3 ℚ) ≠ ⟨-2, 0, 0⟩ := by
  refine ⟨?_, ?_, ?_⟩
  · simp only [update, updateLabel, billboardStep, applyOffsetStep, zOrderStep,
      visibilityStep, resolutionStep, applyConnectorStartUpdate, updateStartPoint,
      needsFlipOf, targetVisualOffsetOf, flipDotOf, screenRightOf, flippedSide,
      swapLateral, calculateVisualOffset, calculateConnectorStartPoint, flipLabel,
      flipOptions, flipCam, sqrtOneStub, res0, qIdent, getDefaultLabelOptions,
      createLabelObject, createConnector, createTextSprite, createBackgroundMesh,
      lookupLabel, Vec3.normalize, Vec3.length, Vec3.lengthSq, Vec3.divideScalar,
      Vec3.multiplyScalar, Vec3.sub, Vec3.dot, Vec3.projectOnPlane,
      Vec3.projectOnVector, Vec3.zero, zBaseOf, Vec3.addv, String.reduceEq, reduceIte]
    norm_num [Vec3.mk.injEq, Prod.mk.injEq]
    simp only [String.reduceEq, reduceIte]
  · simp only [specC3StartPoint, flipLabel, flipOptions, getDefaultLabelOptions,
      createLabelObject, calculateVisualOffset, Vec3.zero, String.reduceEq, reduceIte]
    norm_num [Vec3.mk.injEq]
  · simp only [ne_eq, Vec3.mk.injEq, not_and]
    intro hx
    norm_num at hx

/-- C3 (amended): the connector line runs from a start point on the label
box's near edge to the anchor point (0, 0, 0); the edge is keyed on the
connector side in effect for the computation: the intended side at
creation time and on non-flipped frames (top: offset minus height/2 in y;
bottom: plus height/2; left: minus width/2 in x; right: plus width/2),
and the swapped lateral side on flipped frames. -/
theorem connector_start_edge_amended {q : Type} [LinearOrderedField q]
    (visualOffset targetVisualOffset : Vec3 q) (options : LabelOptions q)
    (needsFlip : Bool) (resolution : q × q)
    (hpos : options.connectorPosition = "top" ∨ options.connectorPosition = "bottom"
      ∨ options.connectorPosition = "left" ∨ options.connectorPosition = "right") :
    calculateConnectorStartPoint visualOffset options = specC3StartPoint visualOffset options
    ∧ (createConnector visualOffset options resolution).geomStart
        = specC3StartPoint visualOffset options
    ∧ (createConnector visualOffset options resolution).geomEnd = Vec3.zero
    ∧ updateStartPoint targetVisualOffset needsFlip options
        = specC3StartPoint targetVisualOffset
            (if needsFlip then
              { options with connectorPosition := swapLateral options.connectorPosition }
            else options) := by
  have hcs : ∀ v : Vec3 q, ∀ o : LabelOptions q,
      (o.connectorPosition = "top" ∨ o.connectorPosition = "bottom"
        ∨ o.connectorPosition = "left" ∨ o.connectorPosition = "right") →
      calculateConnectorStartPoint v o = specC3StartPoint v o := by
    intro v o ho
    rcases ho with h | h | h | h <;> simp [calculateConnectorStartPoint, specC3StartPoint, h]
  refine ⟨hcs _ _ hpos, hcs _ _ hpos, rfl, ?_⟩
  cases needsFlip with
  | false => simpa [updateStartPoint] using hcs targetVisualOffset options hpos
  | true =>
    have hsw : swapLateral options.connectorPosition = "top"
        ∨ swapLateral options.connectorPosition = "bottom"
        ∨ swapLateral options.connectorPosition = "left"
        ∨ swapLateral options.connectorPosition = "right" := by
      rcases hpos with h | h | h | h <;> simp [swapLateral, h]
    simpa [updateStartPoint] using
      hcs targetVisualOffset
        { options with connectorPosition := swapLateral options.connectorPosition } hsw

/-- Witness for amended C3 at the lateral sample options, on a flipped
frame. -/
theorem connector_start_edge_amended_witness :
    (flipOptions.connectorPosition = "top" ∨ flipOptions.connectorPosition = "bottom"
      ∨ flipOptions.connectorPosition = "left" ∨ flipOptions.connectorPosition = "right")
    ∧ updateStartPoint (⟨-(5/4 : ℚ), 0, 0⟩ : Vec3 ℚ) true flipOptions
        = specC3StartPoint (⟨-(5/4 : ℚ), 0, 0⟩ : Vec3 ℚ)
            { flipOptions with connectorPosition := swapLateral flipOptions.connectorPosition } := by
  have hm := connector_start_edge_amended (⟨-(5/4 : ℚ), 0, 0⟩ : Vec3 ℚ) ⟨-(5/4 : ℚ), 0, 0⟩
    flipOptions true res0 (Or.inr (Or.inr (Or.inl rfl)))
  exact ⟨Or.inr (Or.inr (Or.inl rfl)), by simpa using hm.2.2.2⟩

/-- C7: the `part_000` variant of `createTextSprite` substitutes the
visibly marked magenta placeholder sprite, scaled to the label box
dimensions, exactly when the computed canvas size is non-positive in
either dimension; for every other canvas size it produces the normal
textured sprite; and the composite function feeds the computed canvas
size into that branch. -/
theorem createTextSprite_placeholder_iff {q : Type} [LinearOrderedField q] [FloorRing q]
    (measure : String → q) (parsedFontSize : Option q) (text : String)
    (options : LabelOptions q) (canvasWidth canvasHeight : q) :
    (PartZero.spriteFromCanvas canvasWidth canvasHeight options
        = PartZero.errorSprite options
      ↔ (canvasWidth ≤ 0 ∨ canvasHeight ≤ 0))
    ∧ PartZero.createTextSprite measure parsedFontSize text options
        = PartZero.spriteFromCanvas (PartZero.canvasWidthOf measure options.padding text)
            (PartZero.canvasHeightOf parsedFontSize options.padding text) options
    ∧ (¬ (canvasWidth ≤ 0 ∨ canvasHeight ≤ 0) →
        (PartZero.spriteFromCanvas canvasWidth canvasHeight options).hasMap = true) := by
  refine ⟨⟨?_, ?_⟩, rfl, ?_⟩
  · intro he
    by_cases hcond : canvasWidth ≤ 0 ∨ canvasHeight ≤ 0
    · exact hcond
    · simp [PartZero.spriteFromCanvas, PartZero.errorSprite, hcond] at he
  · intro hcond
    simp [PartZero.spriteFromCanvas, hcond]
  · intro hcond
    simp [PartZero.spriteFromCanvas, hcond]

/-- Witness for C7: a hypothetical non-positive canvas width yields the
placeholder, a positive canvas size yields a textured sprite. -/
theorem createTextSprite_placeholder_iff_witness :
    PartZero.spriteFromCanvas (-4 : ℚ) 8 getDefaultLabelOptions
      = PartZero.errorSprite getDefaultLabelOptions
    ∧ (PartZero.spriteFromCanvas (400 : ℚ) 196 getDefaultLabelOptions).hasMap = true := by
  have hm1 := createTextSprite_placeholder_iff (fun _ => (80 : ℚ)) (some 24) "Hello"
    getDefaultLabelOptions (-4 : ℚ) 8
  have hm2 := createTextSprite_placeholder_iff (fun _ => (80 : ℚ)) (some 24) "Hello"
    getDefaultLabelOptions (400 : ℚ) 196
  exact ⟨hm1.1.mpr (Or.inl (by norm_num)), hm2.2.2 (by norm_num)⟩

/-- The connector-geometry rewrite touches neither anchor, text nor
options of a label. -/
theorem applyConnectorStartUpdate_static {q : Type} [LinearOrderedField q]
    (label : Label q) (targetVisualOffset : Vec3 q) (needsFlip : Bool) :
    (applyConnectorStartUpdate label targetVisualOffset needsFlip).containerPosition
        = label.containerPosition
    ∧ (applyConnectorStartUpdate label targetVisualOffset needsFlip).text = label.text
    ∧ (applyConnectorStartUpdate label targetVisualOffset needsFlip).options
        = label.options := by
  rcases h : label.connector with _ | c
  · simp [applyConnectorStartUpdate, h]
  · by_cases hs : label.options.showConnector = true <;>
      simp [applyConnectorStartUpdate, h, hs]

/-- The offset-application step touches neither anchor, text nor options. -/
theorem applyOffsetStep_static {q : Type} [LinearOrderedField q]
    (targetVisualOffset : Vec3 q) (needsFlip : Bool) (label : Label q) :
    (applyOffsetStep targetVisualOffset needsFlip label).containerPosition
        = label.containerPosition
    ∧ (applyOffsetStep targetVisualOffset needsFlip label).text = label.text
    ∧ (applyOffsetStep targetVisualOffset needsFlip label).options = label.options := by
  by_cases hc : label.currentAppliedOffset = targetVisualOffset
  · simp [applyOffsetStep, hc]
  · have ha := applyConnectorStartUpdate_static
      ({ label with
        background := label.background.map (fun b => { b with position := targetVisualOffset })
        textSprite := label.textSprite.map (fun s => { s with position := targetVisualOffset }) })
      targetVisualOffset needsFlip
    simp only [applyOffsetStep, hc, if_neg]
    exact ⟨ha.1, ha.2.1, ha.2.2⟩

/-- The z-ordering step touches neither anchor, text nor options. -/
theorem zOrderStep_static {q : Type} [LinearOrderedField q]
    (needsFlip : Bool) (label : Label q) :
    (zOrderStep needsFlip label).containerPosition = label.containerPosition
    ∧ (zOrderStep needsFlip label).text = label.text
    ∧ (zOrderStep needsFlip label).options = label.options := by
  rcases h : label.background with _ | b <;> simp [zOrderStep, h]

/-- The visibility step touches neither anchor, text nor options. -/
theorem visibilityStep_static {q : Type} [LinearOrderedField q] (label : Label q) :
    (visibilityStep label).containerPosition = label.containerPosition
    ∧ (visibilityStep label).text = label.text
    ∧ (visibilityStep label).options = label.options :=
  ⟨rfl, rfl, rfl⟩

/-- The resolution step touches neither anchor, text nor options. -/
theorem resolutionStep_static {q : Type} [LinearOrderedField q]
    (resolution : q × q) (label : Label q) :
    (resolutionStep resolution label).containerPosition = label.containerPosition
    ∧ (resolutionStep resolution label).text = label.text
    ∧ (resolutionStep resolution label).options = label.options :=
  ⟨rfl, rfl, rfl⟩

/-- The whole per-label update touches neither anchor, text nor options. -/
theorem updateLabel_static {q : Type} [LinearOrderedField q]
    (sqrt : q → q) (cam : CameraState q) (cameraRight : Vec3 q) (resolution : q × q)
    (label : Label q) :
    (updateLabel sqrt cam cameraRight resolution label).containerPosition
        = label.containerPosition
    ∧ (updateLabel sqrt cam cameraRight resolution label).text = label.text
    ∧ (updateLabel sqrt cam cameraRight resolution label).options = label.options := by
  have hA := applyOffsetStep_static
    (targetVisualOffsetOf sqrt cameraRight cam.position (billboardStep cam label).options)
    (needsFlipOf sqrt cameraRight cam.position (billboardStep cam label).options)
    (billboardStep cam label)
  have hZ := zOrderStep_static
    (needsFlipOf sqrt cameraRight cam.position (billboardStep cam label).options)
    (applyOffsetStep
      (targetVisualOffsetOf sqrt cameraRight cam.position (billboardStep cam label).options)
      (needsFlipOf sqrt cameraRight cam.position (billboardStep cam label).options)
      (billboardStep cam label))
  have hV := visibilityStep_static
    (zOrderStep
      (needsFlipOf sqrt cameraRight cam.position (billboardStep cam label).options)
      (applyOffsetStep
        (targetVisualOffsetOf sqrt cameraRight cam.position (billboardStep cam label).options)
        (needsFlipOf sqrt cameraRight cam.position (billboardStep cam label).options)
        (billboardStep cam label)))
  have hR := resolutionStep_static resolution
    (visibilityStep
      (zOrderStep
        (needsFlipOf sqrt cameraRight cam.position (billboardStep cam label).options)
        (applyOffsetStep
          (targetVisualOffsetOf sqrt cameraRight cam.position (billboardStep cam label).options)
          (needsFlipOf sqrt cameraRight cam.position (billboardStep cam label).options)
          (billboardStep cam label))))
  refine ⟨?_, ?_, ?_⟩
  · exact (((hR.1.trans hV.1).trans hZ.1).trans hA.1).trans rfl
  · exact (((hR.2.1.trans hV.2.1).trans hZ.2.1).trans hA.2.1).trans rfl
  · exact (((hR.2.2.trans hV.2.2).trans hZ.2.2).trans hA.2.2).trans rfl

/-- C10: the per-frame update never changes a label's anchor (container
position and, being part of the options, the connector target), its
text, its stored options (hence the intended connector side), or the
collection's membership: every id present before is present after with
those fields equal, and no id appears or disappears. -/
theorem update_preserves_label_identity {q : Type} [LinearOrderedField q]
    (sqrt : q → q) (camera : Option (CameraState q)) (resolution : q × q)
    (labels : LabelMap q) (id : String) (label : Label q)
    (h : lookupLabel id labels = some label) :
    (∃ lab2 : Label q, lookupLabel id (update sqrt camera resolution labels) = some lab2
      ∧ lab2.containerPosition = label.containerPosition
      ∧ lab2.options = label.options
      ∧ lab2.text = label.text)
    ∧ (∀ j : String, (lookupLabel j (update sqrt camera resolution labels)).isSome
        = (lookupLabel j labels).isSome) := by
  cases camera with
  | none => exact ⟨⟨label, h, rfl, rfl, rfl⟩, fun j => rfl⟩
  | some cam =>
    by_cases he : labels.isEmpty
    · have hid : update sqrt (some cam) resolution labels = labels := by
        simp [update, he]
      rw [hid]
      exact ⟨⟨label, h, rfl, rfl, rfl⟩, fun j => rfl⟩
    · have hu : update sqrt (some cam) resolution labels
          = labels.map (fun entry => (entry.1,
              updateLabel sqrt cam (Vec3.normalize sqrt cam.matrixWorldCol0) resolution
                entry.2)) := by
        simp [update, he]
      rw [hu]
      constructor
      · refine ⟨updateLabel sqrt cam (Vec3.normalize sqrt cam.matrixWorldCol0) resolution
          label, ?_, ?_, ?_, ?_⟩
        · rw [lookupLabel_mapValues, h]; rfl
        · exact (updateLabel_static _ _ _ _ _).1
        · exact (updateLabel_static _ _ _ _ _).2.2
        · exact (updateLabel_static _ _ _ _ _).2.1
      · intro j
        rw [lookupLabel_mapValues]
        cases lookupLabel j labels <;> rfl

/-- Counterexample to C6 as stated: updating the sample label with a
patch that changes only the height makes the appearance-change test
fire, and the stored `calculatedVisualOffset` key is then recomputed
from the merged options ((0, 4/5, 0)) instead of following the
new-over-old-over-default precedence chain, which predicts the previous
value (0, 7/10, 0). -/
theorem merge_recomputes_calculated_offset_cex :
    ((lookupLabel "Sample"
        (updateLabelText res0 [("Sample", sampleTopLabel)] "Sample" "New" heightPatch
          false)).map
      (fun l => l.options.calculatedVisualOffset))
      = some ⟨0, 4/5, 0⟩
    ∧ (heightPatch.calculatedVisualOffset.getD
        ((sampleTopLabel.options.asPatch.calculatedVisualOffset).getD
          (getDefaultLabelOptions : LabelOptions ℚ).calculatedVisualOffset))
      = ⟨0, 7/10, 0⟩
    ∧ ((⟨0, 4/5, 0⟩ : Vec3 ℚ) ≠ ⟨0, 7/10, 0⟩) := by
  refine ⟨?_, ?_, ?lastne⟩
  case lastne =>
    simp only [ne_eq, Vec3.mk.injEq, not_and]
    intro hx hy
    norm_num at hy
  · simp only [updateLabelText, mergedUpdateOptions, appearanceChangedB, spreadOptions,
      LabelOptions.asPatch, cleanupLabelElements, createBackgroundMesh, createTextSprite,
      createConnector, calculateConnectorStartPoint, calculateVisualOffset,
      sampleTopLabel, createLabelObject, getDefaultLabelOptions, heightPatch, res0,
      qIdent, lookupLabel, setLabel, lookupLabel_setLabel_self, Vec3.zero,
      String.reduceEq, reduceIte]
    norm_num [Vec3.mk.injEq, lookupLabel, setLabel, lookupLabel_setLabel_self]
  · simp only [heightPatch, sampleTopLabel, createLabelObject, getDefaultLabelOptions,
      LabelOptions.asPatch, calculateVisualOffset, Vec3.zero, String.reduceEq,
      reduceIte, Option.getD_none, Option.getD_some]
    norm_num [Vec3.mk.injEq]

/-- C6 (amended): on every label update the stored options are the merge
of the documented defaults, the previous options and the newly supplied
options with precedence new over old over defaults for every key, except
that the stored `calculatedVisualOffset` is recomputed from the merged
options whenever the appearance-change test fires
(`specC6StoredOptions`); the merge itself follows the precedence chain
on every key, the optional `offset` key included. -/
theorem updateLabelText_merge_amended {q : Type} [LinearOrderedField q]
    (resolution : q × q) (labels : LabelMap q) (id : String) (newText : String)
    (patch : LabelOptionsPatch q) (force : Bool) (label : Label q)
    (h : lookupLabel id labels = some label) :
    ((lookupLabel id (updateLabelText resolution labels id newText patch force)).map
        (fun l => l.options))
      = some (specC6StoredOptions label.options patch force)
    ∧ (mergedUpdateOptions label.options patch).width
        = patch.width.getD ((label.options.asPatch.width).getD
            (getDefaultLabelOptions : LabelOptions q).width)
    ∧ (mergedUpdateOptions label.options patch).height
        = patch.height.getD ((label.options.asPatch.height).getD
            (getDefaultLabelOptions : LabelOptions q).height)
    ∧ (mergedUpdateOptions label.options patch).backgroundColor
        = patch.backgroundColor.getD ((label.options.asPatch.backgroundColor).getD
            (getDefaultLabelOptions : LabelOptions q).backgroundColor)
    ∧ (mergedUpdateOptions label.options patch).textColor
        = patch.textColor.getD ((label.options.asPatch.textColor).getD
            (getDefaultLabelOptions : LabelOptions q).textColor)
    ∧ (mergedUpdateOptions label.options patch).opacity
        = patch.opacity.getD ((label.options.asPatch.opacity).getD
            (getDefaultLabelOptions : LabelOptions q).opacity)
    ∧ (mergedUpdateOptions label.options patch).showConnector
        = patch.showConnector.getD ((label.options.asPatch.showConnector).getD
            (getDefaultLabelOptions : LabelOptions q).showConnector)
    ∧ (mergedUpdateOptions label.options patch).connectorPosition
        = patch.connectorPosition.getD ((label.options.asPatch.connectorPosition).getD
            (getDefaultLabelOptions : LabelOptions q).connectorPosition)
    ∧ (mergedUpdateOptions label.options patch).connectorWidth
        = patch.connectorWidth.getD ((label.options.asPatch.connectorWidth).getD
            (getDefaultLabelOptions : LabelOptions q).connectorWidth)
    ∧ (mergedUpdateOptions label.options patch).connectorLength
        = patch.connectorLength.getD ((label.options.asPatch.connectorLength).getD
            (getDefaultLabelOptions : LabelOptions q).connectorLength)
    ∧ (mergedUpdateOptions label.options patch).connectorColor
        = patch.connectorColor.getD ((label.options.asPatch.connectorColor).getD
            (getDefaultLabelOptions : LabelOptions q).connectorColor)
    ∧ (mergedUpdateOptions label.options patch).font
        = patch.font.getD ((label.options.asPatch.font).getD
            (getDefaultLabelOptions : LabelOptions q).font)
    ∧ (mergedUpdateOptions label.options patch).padding
        = patch.padding.getD ((label.options.asPatch.padding).getD
            (getDefaultLabelOptions : LabelOptions q).padding)
    ∧ (mergedUpdateOptions label.options patch).depthTest
        = patch.depthTest.getD ((label.options.asPatch.depthTest).getD
            (getDefaultLabelOptions : LabelOptions q).depthTest)
    ∧ (mergedUpdateOptions label.options patch).sizeAttenuation
        = patch.sizeAttenuation.getD ((label.options.asPatch.sizeAttenuation).getD
            (getDefaultLabelOptions : LabelOptions q).sizeAttenuation)
    ∧ (mergedUpdateOptions label.options patch).visible
        = patch.visible.getD ((label.options.asPatch.visible).getD
            (getDefaultLabelOptions : LabelOptions q).visible)
    ∧ (mergedUpdateOptions label.options patch).renderOrderBackground
        = patch.renderOrderBackground.getD ((label.options.asPatch.renderOrderBackground).getD
            (getDefaultLabelOptions : LabelOptions q).renderOrderBackground)
    ∧ (mergedUpdateOptions label.options patch).renderOrderText
        = patch.renderOrderText.getD ((label.options.asPatch.renderOrderText).getD
            (getDefaultLabelOptions : LabelOptions q).renderOrderText)
    ∧ (mergedUpdateOptions label.options patch).renderOrderConnector
        = patch.renderOrderConnector.getD ((label.options.asPatch.renderOrderConnector).getD
            (getDefaultLabelOptions : LabelOptions q).renderOrderConnector)
    ∧ (mergedUpdateOptions label.options patch).calculatedVisualOffset
        = patch.calculatedVisualOffset.getD ((label.options.asPatch.calculatedVisualOffset).getD
            (getDefaultLabelOptions : LabelOptions q).calculatedVisualOffset)
    ∧ (mergedUpdateOptions label.options patch).connectorTarget
        = patch.connectorTarget.getD ((label.options.asPatch.connectorTarget).getD
            (getDefaultLabelOptions : LabelOptions q).connectorTarget)
    ∧ (mergedUpdateOptions label.options patch).offset
        = (match patch.offset with
           | some v => some v
           | none => label.options.offset) := by
  refine ⟨?_, rfl, rfl, rfl, rfl, rfl, rfl, rfl, rfl, rfl, rfl, rfl, rfl, rfl, rfl,
    rfl, rfl, rfl, rfl, rfl, rfl, ?_⟩
  · by_cases hac : appearanceChangedB force (mergedUpdateOptions label.options patch)
        label.options = true <;>
      simp [updateLabelText, specC6StoredOptions, h, hac, lookupLabel_setLabel_self]
  · cases hpo : patch.offset with
    | none =>
      cases hoo : label.options.offset <;>
        simp [mergedUpdateOptions, spreadOptions, LabelOptions.asPatch,
          getDefaultLabelOptions, hpo, hoo]
    | some v =>
      simp [mergedUpdateOptions, spreadOptions, LabelOptions.asPatch,
        getDefaultLabelOptions, hpo]

/-- Witness for amended C6 at the sample label and the height patch. -/
theorem updateLabelText_merge_amended_witness :
    lookupLabel "Sample" [("Sample", sampleTopLabel)] = some sampleTopLabel
    ∧ ((lookupLabel "Sample"
          (updateLabelText res0 [("Sample", sampleTopLabel)] "Sample" "New" heightPatch
            false)).map
        (fun l => l.options))
      = some (specC6StoredOptions sampleTopLabel.options heightPatch false) := by
  have hm := updateLabelText_merge_amended res0 [("Sample", sampleTopLabel)] "Sample"
    "New" heightPatch false sampleTopLabel rfl
  exact ⟨rfl, hm.1⟩

/-- Counterexample to C5 as stated: for the freshly created sample label
the computed target offset equals the applied offset, yet the frame
update still rewrites the text sprite's position (its z component is
re-assigned from the z-ordering base, 0 to 1/200); so "the background
and text-sprite offset positions ... are not rewritten that frame" fails
on the code. -/
theorem update_rewrites_z_on_skip_cex :
    targetVisualOffsetOf sqrtOneStub (Vec3.normalize sqrtOneStub cam0.matrixWorldCol0)
        cam0.position sampleTopLabel.options = sampleTopLabel.currentAppliedOffset
    ∧ ((lookupLabel "Sample"
          (update sqrtOneStub (some cam0) res0 [("Sample", sampleTopLabel)])).map
        (fun l => l.textSprite))
      = some (some { position := ⟨0, 7/10, 1/200⟩, hasMap := true })
    ∧ sampleTopLabel.textSprite = some { position := ⟨0, 7/10, 0⟩, hasMap := true }
    ∧ ((⟨0, 7/10, 1/200⟩ : Vec3 ℚ) ≠ ⟨0, 7/10, 0⟩) := by
  refine ⟨?_, ?_, ?_, ?_⟩
  · simp only [targetVisualOffsetOf, needsFlipOf, flipDotOf, screenRightOf, flippedSide,
      sampleTopLabel, createLabelObject, getDefaultLabelOptions, calculateVisualOffset,
      cam0, sqrtOneStub, res0, qIdent, Vec3.normalize, Vec3.length, Vec3.lengthSq,
      Vec3.divideScalar, Vec3.multiplyScalar, Vec3.sub, Vec3.dot, Vec3.projectOnPlane,
      Vec3.projectOnVector, Vec3.zero, String.reduceEq, reduceIte]
    norm_num [Vec3.mk.injEq]
  · simp only [update, updateLabel, billboardStep, applyOffsetStep, zOrderStep,
      visibilityStep, resolutionStep, applyConnectorStartUpdate, updateStartPoint,
      needsFlipOf, targetVisualOffsetOf, flipDotOf, screenRightOf, flippedSide,
      swapLateral, calculateVisualOffset, calculateConnectorStartPoint, sampleTopLabel,
      cam0, sqrtOneStub, res0, qIdent, getDefaultLabelOptions, createLabelObject,
      createConnector, createTextSprite, createBackgroundMesh, lookupLabel,
      Vec3.normalize, Vec3.length, Vec3.lengthSq, Vec3.divideScalar,
      Vec3.multiplyScalar, Vec3.sub, Vec3.dot, Vec3.projectOnPlane,
      Vec3.projectOnVector, Vec3.zero, zBaseOf, Vec3.addv, String.reduceEq, reduceIte]
    norm_num [Vec3.mk.injEq, Prod.mk.injEq]
  · simp only [sampleTopLabel, createLabelObject, createTextSprite,
      getDefaultLabelOptions, calculateVisualOffset, Vec3.zero, String.reduceEq,
      reduceIte]
    norm_num [Vec3.mk.injEq]
  · simp only [ne_eq, Vec3.mk.injEq, not_and]
    intro hx hy
    norm_num

/-- C5 (amended): per frame and per fully populated connector-enabled
label, the x and y components of the background and text-sprite
positions, the connector start and end geometry and the applied-offset
record are rewritten exactly when the computed target visual offset
differs from the currently applied offset, and are kept verbatim when
the two are equal; independently of that comparison, the z components of
background, text sprite and connector are re-assigned every frame from
the flip-dependent z base, so the full positions are not left untouched
on a skipped frame. -/
theorem update_skip_redundant_amended {q : Type} [LinearOrderedField q]
    (sqrt : q → q) (cam : CameraState q) (cameraRight : Vec3 q) (resolution : q × q)
    (label : Label q) (bg : BackgroundState q) (sp : SpriteState q) (cn : ConnectorState q)
    (hbg : label.background = some bg) (hsp : label.textSprite = some sp)
    (hcn : label.connector = some cn) (hsc : label.options.showConnector = true) :
    updateLabel sqrt cam cameraRight resolution label
      = specC5Updated sqrt cam cameraRight resolution label bg sp cn := by
  by_cases hres : cn.materialResolution = resolution <;>
  by_cases hc : label.currentAppliedOffset
      = targetVisualOffsetOf sqrt cameraRight cam.position label.options <;>
    simp [specC5Updated, updateLabel, billboardStep, applyOffsetStep, zOrderStep,
      visibilityStep, resolutionStep, applyConnectorStartUpdate, hbg, hsp, hcn, hsc,
      hc, hres]

/-- Witness for amended C5 at the freshly created sample label. -/
theorem update_skip_redundant_amended_witness :
    sampleTopLabel.background = some ⟨⟨0, 7/10, 0⟩⟩
    ∧ sampleTopLabel.textSprite = some ⟨⟨0, 7/10, 0⟩, true⟩
    ∧ sampleTopLabel.connector = some ⟨⟨0, 1/2, 0⟩, Vec3.zero, -(1/100), true, res0⟩
    ∧ sampleTopLabel.options.showConnector = true
    ∧ updateLabel sqrtOneStub cam0 (Vec3.normalize sqrtOneStub cam0.matrixWorldCol0) res0
        sampleTopLabel
      = specC5Updated sqrtOneStub cam0 (Vec3.normalize sqrtOneStub cam0.matrixWorldCol0)
          res0 sampleTopLabel ⟨⟨0, 7/10, 0⟩⟩ ⟨⟨0, 7/10, 0⟩, true⟩
          ⟨⟨0, 1/2, 0⟩, Vec3.zero, -(1/100), true, res0⟩ := by
  have hbg : sampleTopLabel.background = some ⟨⟨0, 7/10, 0⟩⟩ := by
    simp only [sampleTopLabel, createLabelObject, createBackgroundMesh,
      getDefaultLabelOptions, calculateVisualOffset, Vec3.zero, String.reduceEq,
      reduceIte]
    norm_num [Vec3.mk.injEq]
  have hsp : sampleTopLabel.textSprite = some ⟨⟨0, 7/10, 0⟩, true⟩ := by
    simp only [sampleTopLabel, createLabelObject, createTextSprite,
      getDefaultLabelOptions, calculateVisualOffset, Vec3.zero, String.reduceEq,
      reduceIte]
    norm_num [Vec3.mk.injEq]
  have hcn : sampleTopLabel.connector
      = some ⟨⟨0, 1/2, 0⟩, Vec3.zero, -(1/100), true, res0⟩ := by
    simp only [sampleTopLabel, createLabelObject, createConnector,
      calculateConnectorStartPoint, getDefaultLabelOptions, calculateVisualOffset,
      Vec3.zero, String.reduceEq, reduceIte]
    norm_num [Vec3.mk.injEq]
  exact ⟨hbg, hsp, hcn, rfl,
    update_skip_redundant_amended sqrtOneStub cam0 _ res0 sampleTopLabel _ _ _
      hbg hsp hcn rfl⟩

/-- Witness for C10 at a one-label collection and the sample camera. -/
theorem update_preserves_label_identity_witness :
    lookupLabel "Sample" [("Sample", sampleTopLabel)] = some sampleTopLabel
    ∧ (∃ lab2 : Label ℚ, lookupLabel "Sample"
          (update sqrtOneStub (some cam0) res0 [("Sample", sampleTopLabel)]) = some lab2
        ∧ lab2.containerPosition = sampleTopLabel.containerPosition
        ∧ lab2.options = sampleTopLabel.options
        ∧ lab2.text = sampleTopLabel.text) := by
  have hm := update_preserves_label_identity sqrtOneStub (some cam0) res0
    [("Sample", sampleTopLabel)] "Sample" sampleTopLabel rfl
  exact ⟨rfl, hm.1⟩

end FloatingLabels
